import Mathlib

/-!
Shallow embedding of the todo-app service layer (`app/models.py`,
`app/user_service.py`, `app/task_service.py`).

The relational datastore is modelled as a `DB` record holding the two
tables (`users`, `tasks`) as lists in insertion order together with the
autoincrement counters for the primary keys.  `datetime.utcnow()` is
modelled by an explicit `now : Nat` argument to every operation that
reads the clock.  Each service method becomes a pure function from the
database state (plus its arguments) to its return value and the new
database state.
-/

namespace App

/-- Model of `app.models.User` (persistent row). -/
structure User where
  id : Nat
  name : String
  email : String
  is_active : Bool
  created_at : Nat
deriving DecidableEq, Repr

/-- Model of `app.models.Task` (persistent row); `updated_at` is nullable. -/
structure Task where
  id : Nat
  title : String
  description : String
  completed : Bool
  user_id : Nat
  created_at : Nat
  updated_at : Option Nat
deriving DecidableEq, Repr

/-- Model of `app.models.UserCreate` (request schema). -/
structure UserCreate where
  name : String
  email : String
deriving DecidableEq, Repr

/-- Model of `app.models.TaskCreate`; `description` defaults to `""`. -/
structure TaskCreate where
  title : String
  description : String := ""
  user_id : Nat
deriving DecidableEq, Repr

/-- Model of `app.models.TaskUpdate` (sparse update schema).
`none` models a field not supplied (excluded by
`model_dump(exclude_unset=True)`); `some v` models a field explicitly
set to `v`. -/
structure TaskUpdate where
  title : Option String := none
  description : Option String := none
  completed : Option Bool := none
deriving DecidableEq, Repr

/-- The relational datastore: both tables in insertion order plus the
autoincrement primary-key counters. -/
structure DB where
  users : List User
  tasks : List Task
  nextUserId : Nat
  nextTaskId : Nat
deriving DecidableEq, Repr

/-- The empty datastore right after schema creation. -/
def DB.empty : DB := ⟨[], [], 1, 1⟩

/-- Model of `session.get(User, user_id)`: point lookup by primary key. -/
def findUser (db : DB) (user_id : Nat) : Option User :=
  db.users.find? (fun u => u.id == user_id)

/-- Model of `session.get(Task, task_id)`: point lookup by primary key. -/
def findTask (db : DB) (task_id : Nat) : Option Task :=
  db.tasks.find? (fun t => t.id == task_id)

/-- Model of `UserService.create_user`: checks for an existing row with the same
email; on a hit returns `none` with the store untouched, otherwise
inserts a fresh `User` (active, `created_at = now`) and returns it. -/
def create_user (db : DB) (user_data : UserCreate) (now : Nat) :
    Option User × DB :=
  match db.users.find? (fun u => u.email == user_data.email) with
  | some _ => (none, db)
  | none =>
      let u : User :=
        { id := db.nextUserId, name := user_data.name,
          email := user_data.email, is_active := true, created_at := now }
      (some u, { db with users := db.users ++ [u],
                         nextUserId := db.nextUserId + 1 })

/-- Model of `UserService.get_user_by_id`. -/
def get_user_by_id (db : DB) (user_id : Nat) : Option User :=
  findUser db user_id

/-- Model of `UserService.get_user_by_email`: first row matching the email. -/
def get_user_by_email (db : DB) (email : String) : Option User :=
  db.users.find? (fun u => u.email == email)

/-- The sentinel email of the default user. -/
def default_email : String := "default@todo.app"

/-- Model of `UserService.get_or_create_default_user`.  The `none` result models
the `RuntimeError` branch (creation failing right after the existence
check reported absence). -/
def get_or_create_default_user (db : DB) (now : Nat) : Option User × DB :=
  match get_user_by_email db default_email with
  | some u => (some u, db)
  | none =>
      let r := create_user db ⟨"Default User", default_email⟩ now
      (r.1, r.2)

/-- Model of `TaskService.create_task`: verifies the owning user exists (else
`none`, store untouched), then inserts a `Task` with `completed = false`,
`created_at = now`, `updated_at` absent, and returns it. -/
def create_task (db : DB) (task_data : TaskCreate) (now : Nat) :
    Option Task × DB :=
  match findUser db task_data.user_id with
  | none => (none, db)
  | some _ =>
      let t : Task :=
        { id := db.nextTaskId, title := task_data.title,
          description := task_data.description, completed := false,
          user_id := task_data.user_id, created_at := now,
          updated_at := none }
      (some t, { db with tasks := db.tasks ++ [t],
                         nextTaskId := db.nextTaskId + 1 })

/-- Descending comparison on `created_at` used by
`order_by(desc(Task.created_at))`. -/
def createdDesc (a b : Task) : Prop := b.created_at ≤ a.created_at

instance : DecidableRel createdDesc :=
  fun a b => Nat.decLe b.created_at a.created_at

instance : IsTotal Task createdDesc :=
  ⟨fun a b => Nat.le_total b.created_at a.created_at⟩

instance : IsTrans Task createdDesc :=
  ⟨fun _ _ _ hab hbc => Nat.le_trans hbc hab⟩

/-- Model of `TaskService.get_user_tasks`: rows with this `user_id`, optionally
restricted to a completion value, ordered by `created_at` descending
(a stable sort, matching the spec's stable-ties reading). -/
def get_user_tasks (db : DB) (user_id : Nat)
    (completed : Option Bool := none) : List Task :=
  let l := db.tasks.filter (fun t => t.user_id == user_id)
  let l := match completed with
    | none => l
    | some c => l.filter (fun t => t.completed == c)
  List.insertionSort createdDesc l

/-- Model of `TaskService.get_task_by_id`. -/
def get_task_by_id (db : DB) (task_id : Nat) : Option Task :=
  findTask db task_id

/-- Committing a mutated row: the row with this primary key is replaced
in place (ids are unique, order untouched). -/
def replaceTask (db : DB) (t' : Task) : DB :=
  { db with tasks := db.tasks.map (fun u => if u.id == t'.id then t' else u) }

/-- Model of `TaskService.update_task`: `none` if the task is absent; otherwise
overwrites exactly the supplied fields, stamps `updated_at = now`,
persists and returns the updated row. -/
def update_task (db : DB) (task_id : Nat) (task_data : TaskUpdate)
    (now : Nat) : Option Task × DB :=
  match findTask db task_id with
  | none => (none, db)
  | some t =>
      let t' : Task :=
        { t with
          title := task_data.title.getD t.title,
          description := task_data.description.getD t.description,
          completed := task_data.completed.getD t.completed,
          updated_at := some now }
      (some t', replaceTask db t')

/-- Model of `TaskService.toggle_task_completion`: `none` if the task is absent;
otherwise flips `completed`, stamps `updated_at = now`, persists and
returns the updated row. -/
def toggle_task_completion (db : DB) (task_id : Nat) (now : Nat) :
    Option Task × DB :=
  match findTask db task_id with
  | none => (none, db)
  | some t =>
      let t' : Task := { t with completed := !t.completed,
                                updated_at := some now }
      (some t', replaceTask db t')

/-- Model of `TaskService.delete_task`: `false` if the task is absent (store
untouched); otherwise removes the row and returns `true`. -/
def delete_task (db : DB) (task_id : Nat) : Bool × DB :=
  match findTask db task_id with
  | none => (false, db)
  | some _ =>
      (true, { db with tasks := db.tasks.filter (fun t => !(t.id == task_id)) })


/-! ## Demo states built through the exposed operations -/

/-- A store with one user (id 1) and two of that user's tasks, created at
times 10 and 20. -/
def demoDB : DB :=
  (create_task (create_task (create_user DB.empty ⟨"Alice", "alice@x"⟩ 1).2
    ⟨"t1", "", 1⟩ 10).2 ⟨"t2", "", 1⟩ 20).2

/-- The first task of `demoDB`. -/
def demoT1 : Task := ⟨1, "t1", "", false, 1, 10, none⟩

/-- The second task of `demoDB`. -/
def demoT2 : Task := ⟨2, "t2", "", false, 1, 20, none⟩
/-- The store `demoDB` after toggling task 2 to completed. -/
def demoDB3 : DB := (toggle_task_completion demoDB 2 30).2

/-- Task 2 of `demoDB3`, now completed. -/
def demoT2c : Task := ⟨2, "t2", "", true, 1, 20, some 30⟩

/-! ## Helper lemmas -/

theorem find?_map_replace {l : List Task} {tid : Nat} {t t' : Task}
    (ht' : t'.id = tid)
    (h : l.find? (fun x => x.id == tid) = some t) :
    (l.map (fun u => if u.id == tid then t' else u)).find?
      (fun x => x.id == tid) = some t' := by
  induction l with
  | nil => simp at h
  | cons a l ih =>
      by_cases ha : a.id = tid
      · simp [List.find?_cons_of_pos, ha, ht']
      · rw [List.find?_cons_of_neg _ (by simp [ha])] at h
        rw [List.map_cons, if_neg (by simp [ha]),
          List.find?_cons_of_neg _ (by simp [ha])]
        exact ih h

theorem findTask_replaceTask {db : DB} {tid : Nat} {t t' : Task}
    (h : findTask db tid = some t) (ht' : t'.id = tid) :
    findTask (replaceTask db t') tid = some t' := by
  unfold findTask replaceTask at *
  simpa [ht'] using find?_map_replace ht' h

theorem findTask_id {db : DB} {tid : Nat} {t : Task}
    (h : findTask db tid = some t) : t.id = tid := by
  have := List.find?_some h
  simpa using this

/-! ## C1 -/

/-- C1: when the `user_id` of a task-creation request references no
existing user, `create_task` returns `none` and leaves the store
unchanged: no task row is persisted. -/
theorem create_task_missing_user (db : DB) (td : TaskCreate) (now : Nat)
    (h : findUser db td.user_id = none) :
    create_task db td now = (none, db) := by
  simp [create_task, h]

/-- C1 witness: creating a task for user 1 in the empty store. -/
theorem create_task_missing_user_witness :
    create_task DB.empty ⟨"t", "", 1⟩ 5 = (none, DB.empty) :=
  create_task_missing_user DB.empty ⟨"t", "", 1⟩ 5 (by decide)

/-! ## C6 -/

/-- C6: deleting an existing task returns `true` and a subsequent
`get_task_by_id` on that id returns `none`; deleting a non-existent id
returns `false` and leaves the store unchanged. -/
theorem delete_task_spec (db : DB) (tid : Nat) :
    ((∃ t, findTask db tid = some t) →
        (delete_task db tid).1 = true ∧
        get_task_by_id (delete_task db tid).2 tid = none) ∧
    (findTask db tid = none → delete_task db tid = (false, db)) := by
  constructor
  · rintro ⟨t, h⟩
    refine ⟨by simp [delete_task, h], ?_⟩
    simp only [delete_task, h]
    simp only [get_task_by_id, findTask]
    rw [List.find?_eq_none]
    intro x hx
    have := (List.mem_filter.mp hx).2
    simpa using this
  · intro h
    simp [delete_task, h]

/-- C6 witness: task 1 exists in `demoDB`; the deletion branch of the
specification applies to it. -/
theorem delete_task_spec_witness :
    (delete_task demoDB 1).1 = true ∧
    get_task_by_id (delete_task demoDB 1).2 1 = none :=
  (delete_task_spec demoDB 1).1 ⟨demoT1, by decide⟩

/-! ## C7 -/

/-- C7: creating a user with an already-present email returns `none`
(no exception path exists in the model), the store is unchanged, and the
pre-existing user is still returned intact by an email lookup. -/
theorem create_user_duplicate_email (db : DB) (ud : UserCreate) (u : User)
    (now : Nat) (h : get_user_by_email db ud.email = some u) :
    create_user db ud now = (none, db) ∧
    get_user_by_email db ud.email = some u := by
  rw [get_user_by_email] at h
  exact ⟨by simp [create_user, h], h⟩

/-- C7 witness: re-creating the user of `demoDB` by its email. -/
theorem create_user_duplicate_email_witness :
    create_user demoDB ⟨"Bob", "alice@x"⟩ 7 = (none, demoDB) ∧
    get_user_by_email demoDB "alice@x" = some ⟨1, "Alice", "alice@x", true, 1⟩ :=
  create_user_duplicate_email demoDB ⟨"Bob", "alice@x"⟩
    ⟨1, "Alice", "alice@x", true, 1⟩ 7 (by decide)

/-! ## C4 -/

/-- C4: toggling completion twice returns the task to its original
`completed` value, and after the first toggle `updated_at` is set to the
call time, which is at or after `created_at` (assuming the wall clock
did not run backwards since creation). -/
theorem toggle_completion_roundtrip (db : DB) (tid : Nat) (t : Task)
    (n1 n2 : Nat) (h : findTask db tid = some t)
    (hclk : t.created_at ≤ n1) :
    ∃ t1 t2,
      (toggle_task_completion db tid n1).1 = some t1 ∧
      (toggle_task_completion
        (toggle_task_completion db tid n1).2 tid n2).1 = some t2 ∧
      t2.completed = t.completed ∧
      t1.updated_at = some n1 ∧ t1.created_at ≤ n1 := by
  have hid := findTask_id h
  refine ⟨{ t with completed := !t.completed, updated_at := some n1 },
          { t with completed := !(!t.completed), updated_at := some n2 },
          ?_, ?_, by simp, rfl, hclk⟩
  · simp [toggle_task_completion, h]
  · have h1 : (toggle_task_completion db tid n1).2 =
        replaceTask db { t with completed := !t.completed, updated_at := some n1 } := by
      simp [toggle_task_completion, h]
    rw [h1]
    have hf1 : findTask
        (replaceTask db { t with completed := !t.completed, updated_at := some n1 }) tid =
        some { t with completed := !t.completed, updated_at := some n1 } :=
      findTask_replaceTask h (by simpa using hid)
    simp [toggle_task_completion, hf1]

/-- C4 witness: toggling task 1 of `demoDB` at times 30 and 40. -/
theorem toggle_completion_roundtrip_witness :
    ∃ t1 t2,
      (toggle_task_completion demoDB 1 30).1 = some t1 ∧
      (toggle_task_completion
        (toggle_task_completion demoDB 1 30).2 1 40).1 = some t2 ∧
      t2.completed = demoT1.completed ∧
      t1.updated_at = some 30 ∧ t1.created_at ≤ 30 :=
  toggle_completion_roundtrip demoDB 1 demoT1 30 40 (by decide) (by decide)

/-! ## C5 -/

/-- C5: updating only `title` changes the title, leaves `description`
and `completed` (and `created_at`) unchanged, and makes `updated_at`
non-absent; in general `update_task` overwrites exactly the supplied
fields and keeps unset fields untouched, always stamping `updated_at`. -/
theorem update_task_title_only (db : DB) (tid : Nat) (t : Task)
    (s : String) (now : Nat) (h : findTask db tid = some t) :
    (update_task db tid ⟨some s, none, none⟩ now).1 =
      some { t with title := s, updated_at := some now } ∧
    ∀ td : TaskUpdate, (update_task db tid td now).1 =
      some { t with title := td.title.getD t.title,
                    description := td.description.getD t.description,
                    completed := td.completed.getD t.completed,
                    updated_at := some now } := by
  exact ⟨by simp [update_task, h], fun td => by simp [update_task, h]⟩

/-- C5 witness: retitling task 1 of `demoDB`. -/
theorem update_task_title_only_witness :
    (update_task demoDB 1 ⟨some "new", none, none⟩ 50).1 =
      some { demoT1 with title := "new", updated_at := some 50 } ∧
    ∀ td : TaskUpdate, (update_task demoDB 1 td 50).1 =
      some { demoT1 with title := td.title.getD demoT1.title,
                         description := td.description.getD demoT1.description,
                         completed := td.completed.getD demoT1.completed,
                         updated_at := some 50 } :=
  update_task_title_only demoDB 1 demoT1 "new" 50 (by decide)

/-! ## C10 -/

/-- C10: an update with no field supplied still succeeds, leaves
`title`, `description` and `completed` unchanged, but refreshes
`updated_at`; explicitly supplying `completed = false` is applied, so it
is distinguishable from leaving `completed` unset. -/
theorem update_task_unset_fields (db : DB) (tid : Nat) (t : Task)
    (now : Nat) (h : findTask db tid = some t) :
    (update_task db tid {} now).1 = some { t with updated_at := some now } ∧
    (update_task db tid { completed := some false } now).1 =
      some { t with completed := false, updated_at := some now } := by
  exact ⟨by simp [update_task, h], by simp [update_task, h]⟩

/-- C10 witness: the empty update and the explicit `completed = false`
update applied to task 2 of `demoDB`. -/
theorem update_task_unset_fields_witness :
    (update_task demoDB 2 {} 60).1 =
      some { demoT2 with updated_at := some 60 } ∧
    (update_task demoDB 2 { completed := some false } 60).1 =
      some { demoT2 with completed := false, updated_at := some 60 } :=
  update_task_unset_fields demoDB 2 demoT2 60 (by decide)

/-! ## C2 -/

/-- C2: a user's task listing is ordered by `created_at` descending
(every later entry's `created_at` is at most every earlier entry's), so
a task created later appears before one created earlier; in particular,
in a store holding exactly tasks T1 (created at 10) and T2 (created at
20) for user 1, the listing is `[T2, T1]`. -/
theorem list_tasks_desc_order :
    (∀ (db : DB) (uid : Nat) (c : Option Bool),
        (get_user_tasks db uid c).Pairwise
          (fun a b => b.created_at ≤ a.created_at)) ∧
    get_user_tasks demoDB 1 none = [demoT2, demoT1] := by
  constructor
  · intro db uid c
    exact List.sorted_insertionSort createdDesc _
  · decide

/-- C2 witness: the concrete two-task listing extracted from the
theorem. -/
theorem list_tasks_desc_order_witness :
    get_user_tasks demoDB 1 none = [demoT2, demoT1] :=
  list_tasks_desc_order.2

/-! ## C3 -/

/-- C3: for a user whose stored tasks are exactly one active task `ta`
and one completed task `tc`, filtering on `completed = true` returns
exactly `[tc]`, filtering on `completed = false` returns exactly `[ta]`,
and the unfiltered listing returns both. -/
theorem list_tasks_completion_filter (db : DB) (uid : Nat) (ta tc : Task)
    (hperm : List.Perm (db.tasks.filter (fun t => t.user_id == uid)) [ta, tc])
    (ha : ta.completed = false) (hc : tc.completed = true) :
    get_user_tasks db uid (some true) = [tc] ∧
    get_user_tasks db uid (some false) = [ta] ∧
    List.Perm (get_user_tasks db uid none) [ta, tc] := by
  refine ⟨?_, ?_, ?_⟩
  · have hp := List.Perm.filter (fun t => t.completed == true) hperm
    have hr : [ta, tc].filter (fun t => t.completed == true) = [tc] := by
      simp [ha, hc]
    rw [hr] at hp
    have h1 := List.perm_singleton.mp hp
    show List.insertionSort createdDesc
      ((db.tasks.filter (fun t => t.user_id == uid)).filter
        (fun t => t.completed == true)) = [tc]
    rw [h1]
    rfl
  · have hp := List.Perm.filter (fun t => t.completed == false) hperm
    have hr : [ta, tc].filter (fun t => t.completed == false) = [ta] := by
      simp [ha, hc]
    rw [hr] at hp
    have h1 := List.perm_singleton.mp hp
    show List.insertionSort createdDesc
      ((db.tasks.filter (fun t => t.user_id == uid)).filter
        (fun t => t.completed == false)) = [ta]
    rw [h1]
    rfl
  · exact (List.perm_insertionSort createdDesc _).trans hperm


/-- C3 witness: user 1 of `demoDB3` has exactly the active `demoT1` and
the completed `demoT2c`. -/
theorem list_tasks_completion_filter_witness :
    get_user_tasks demoDB3 1 (some true) = [demoT2c] ∧
    get_user_tasks demoDB3 1 (some false) = [demoT1] ∧
    List.Perm (get_user_tasks demoDB3 1 none) [demoT1, demoT2c] :=
  list_tasks_completion_filter demoDB3 1 demoT1 demoT2c (by decide)
    (by decide) (by decide)

/-! ## C9 -/

theorem mem_get_user_tasks {db : DB} {uid : Nat} {c : Option Bool}
    {t : Task} (h : t ∈ get_user_tasks db uid c) : t.user_id = uid := by
  cases c with
  | none =>
      simp only [get_user_tasks, List.mem_insertionSort,
        List.mem_filter] at h
      simpa using h.2
  | some b =>
      simp only [get_user_tasks, List.mem_insertionSort,
        List.mem_filter] at h
      simpa using h.1.2

/-- C9: every task in a user's listing carries that user's id, so for
two distinct user ids the listings are disjoint: a task of user `a`
never appears in user `b`'s listing, in any store state. -/
theorem list_tasks_ownership_isolation (db : DB) (a b : Nat)
    (c : Option Bool) (hab : a ≠ b) :
    (∀ t ∈ get_user_tasks db a c, t.user_id = a) ∧
    ∀ t ∈ get_user_tasks db a c, t ∉ get_user_tasks db b c := by
  refine ⟨fun t ht => mem_get_user_tasks ht, fun t ht htb => ?_⟩
  exact hab ((mem_get_user_tasks ht).symm.trans (mem_get_user_tasks htb))

/-- C9 witness: user ids 1 and 2 over `demoDB`. -/
theorem list_tasks_ownership_isolation_witness :
    (∀ t ∈ get_user_tasks demoDB 1 none, t.user_id = 1) ∧
    ∀ t ∈ get_user_tasks demoDB 1 none, t ∉ get_user_tasks demoDB 2 none :=
  list_tasks_ownership_isolation demoDB 1 2 none (by decide)

/-! ## C8 -/

/-- C8: `get_or_create_default_user` is an idempotent bootstrap: from
any store state the first call returns a user, the second call (on the
resulting state) returns the very same user (hence the same id); a user
named "Default User" with the sentinel email is created only when no
user with that email exists, and when one does exist the store is left
unchanged and that user is returned. -/
theorem get_or_create_default_user_idempotent (db : DB) (n1 n2 : Nat) :
    ∃ u, (get_or_create_default_user db n1).1 = some u ∧
      (get_or_create_default_user
        (get_or_create_default_user db n1).2 n2).1 = some u ∧
      (get_user_by_email db default_email = none →
        u.name = "Default User" ∧ u.email = default_email) ∧
      ∀ v, get_user_by_email db default_email = some v →
        u = v ∧ (get_or_create_default_user db n1).2 = db := by
  cases hv : db.users.find? (fun u => u.email == default_email) with
  | some v =>
      have hge : get_user_by_email db default_email = some v := hv
      refine ⟨v, ?_, ?_, ?_, ?_⟩
      · simp [get_or_create_default_user, hge]
      · simp [get_or_create_default_user, hge]
      · intro h
        rw [hge] at h
        exact absurd h (by simp)
      · intro w hw
        rw [hge] at hw
        have hvw : v = w := by injection hw
        exact ⟨hvw, by simp [get_or_create_default_user, hge]⟩
  | none =>
      have hge : get_user_by_email db default_email = none := hv
      refine ⟨⟨db.nextUserId, "Default User", default_email, true, n1⟩,
        ?_, ?_, fun _ => ⟨rfl, rfl⟩, ?_⟩
      · simp [get_or_create_default_user, hge, create_user, hv]
      · have h2 : (get_or_create_default_user db n1).2 =
            { db with
              users := db.users ++
                [⟨db.nextUserId, "Default User", default_email, true, n1⟩],
              nextUserId := db.nextUserId + 1 } := by
          simp [get_or_create_default_user, hge, create_user, hv]
        rw [h2]
        simp [get_or_create_default_user, get_user_by_email,
          List.find?_append, hv]
      · intro w hw
        rw [hge] at hw
        exact absurd hw (by simp)

/-- C8 witness: the bootstrap run twice from the empty store. -/
theorem get_or_create_default_user_idempotent_witness :
    ∃ u, (get_or_create_default_user DB.empty 3).1 = some u ∧
      (get_or_create_default_user
        (get_or_create_default_user DB.empty 3).2 4).1 = some u ∧
      (get_user_by_email DB.empty default_email = none →
        u.name = "Default User" ∧ u.email = default_email) ∧
      ∀ v, get_user_by_email DB.empty default_email = some v →
        u = v ∧ (get_or_create_default_user DB.empty 3).2 = DB.empty :=
  get_or_create_default_user_idempotent DB.empty 3 4

end App
